import Mathlib

/-
Verification development for the medical prescription analysis service
(src/main.py). Python strings are modelled as `List Char`; fallible Python
code returns `Except PyErr`; the external warehouse / embedding / vector
search collaborators are modelled as an explicit environment record.
Floating point distances and similarity scores are modelled over `ℚ`
(the claims only involve exactly representable values).
-/

/-- Convert a Lean string literal to the `List Char` representation used for
Python strings throughout this development. -/
def pystr (s : String) : List Char := s.toList

/-- The ASCII whitespace characters recognised by Python `str.strip()` and by
the regex class `\s` (restricted to ASCII, which is all this program meets). -/
def pyWsChar (c : Char) : Bool :=
  decide (c = ' ') || decide (c = '\t') || decide (c = '\n') || decide (c = '\r') ||
  decide (c = '\x0b') || decide (c = '\x0c')

/-- JSON whitespace as skipped by Python `json.loads` (space, tab, LF, CR). -/
def jsonWsChar (c : Char) : Bool :=
  decide (c = ' ') || decide (c = '\t') || decide (c = '\n') || decide (c = '\r')

/-- Python `str.strip()`: drop whitespace from both ends. -/
def pstrip (l : List Char) : List Char :=
  (l.dropWhile pyWsChar).rdropWhile pyWsChar

/-- Python `str.startswith`. -/
def pyStartswith : List Char → List Char → Bool
  | [], _ => true
  | _ :: _, [] => false
  | p :: ps, c :: cs => if p = c then pyStartswith ps cs else false

/-- Python `str.endswith`: the reversed candidate starts with the reversed
suffix. -/
def pyEndswith (suf l : List Char) : Bool :=
  pyStartswith suf.reverse l.reverse

/-- Match a literal character sequence at the head of the input, returning the
remainder on success (used to model literal regex fragments). -/
def dropLit : List Char → List Char → Option (List Char)
  | [], s => some s
  | _ :: _, [] => none
  | p :: ps, c :: cs => if p = c then dropLit ps cs else none

/-- ASCII decimal digit (regex `\d` on the ASCII inputs this program meets). -/
def isDigitChar (c : Char) : Bool := decide ('0' ≤ c ∧ c ≤ '9')

/-- Python `str.lower()` on the ASCII range. -/
def pyLower (c : Char) : Char :=
  if 'A' ≤ c ∧ c ≤ 'Z' then Char.ofNat (c.toNat + 32) else c

/-- Python `int()` applied to a run of decimal digits. -/
def digitsToNat (ds : List Char) : Nat :=
  ds.foldl (fun acc c => 10 * acc + (c.toNat - 48)) 0

/-- Python exceptions that matter to this program, with their message. -/
inductive PyErr where
  | jsonDecodeError (m : List Char)
  | attributeError (m : List Char)
  | externalError (m : List Char)
deriving Repr, DecidableEq

/-- `str(e)` for a modelled Python exception. -/
def PyErr.msg : PyErr → List Char
  | .jsonDecodeError m => m
  | .attributeError m => m
  | .externalError m => m

/-- JSON values as produced by Python `json.loads`.  Numbers are kept as their
source lexeme: this program never inspects numeric JSON values, only whether
the parsed document is an object and what its string members are. -/
inductive JsonVal where
  | str (s : List Char)
  | num (lexeme : List Char)
  | bool (b : Bool)
  | null
  | arr (elems : List JsonVal)
  | obj (members : List (List Char × JsonVal))
deriving Repr

/-- Whether a JSON value is an object (a Python `dict`, the only values with a
`.get` method). -/
def JsonVal.isObj : JsonVal → Bool
  | .obj _ => true
  | _ => false

/-- Standard JSON string escapes (`\uXXXX` handled separately). -/
def escChar : Char → Option Char
  | '"' => some '"'
  | '\\' => some '\\'
  | '/' => some '/'
  | 'b' => some '\x08'
  | 'f' => some '\x0c'
  | 'n' => some '\n'
  | 'r' => some '\r'
  | 't' => some '\t'
  | _ => none

/-- Value of a hexadecimal digit. -/
def hexDigitVal (c : Char) : Option Nat :=
  if '0' ≤ c ∧ c ≤ '9' then some (c.toNat - 48)
  else if 'a' ≤ c ∧ c ≤ 'f' then some (c.toNat - 87)
  else if 'A' ≤ c ∧ c ≤ 'F' then some (c.toNat - 70)
  else none

/-- Lex a JSON string body (the opening quote already consumed), returning the
decoded characters and the input remaining after the closing quote.  Mirrors
Python's strict `py_scanstring`: unescaped control characters are rejected.
(`\uXXXX` escapes for non-surrogate code points decode exactly as in Python;
surrogate-pair combining is not modelled — no input in this development uses
`\u` escapes.) -/
def lexString : List Char → Option (List Char × List Char)
  | [] => none
  | '"' :: rest => some ([], rest)
  | '\\' :: 'u' :: h1 :: h2 :: h3 :: h4 :: r2 =>
    match hexDigitVal h1, hexDigitVal h2, hexDigitVal h3, hexDigitVal h4 with
    | some a, some b, some d, some e =>
      (lexString r2).map (fun st => (Char.ofNat (((a * 16 + b) * 16 + d) * 16 + e) :: st.1, st.2))
    | _, _, _, _ => none
  | '\\' :: e :: r =>
    match escChar e with
    | some ec => (lexString r).map (fun st => (ec :: st.1, st.2))
    | none => none
  | '\\' :: [] => none
  | c :: rest =>
    if c.toNat < 32 then none
    else (lexString rest).map (fun st => (c :: st.1, st.2))

/-- The integer part of the JSON number grammar: `0` or `[1-9][0-9]*`. -/
def lexIntPart : List Char → Option (List Char × List Char)
  | [] => none
  | c :: rest =>
    if c = '0' then some (['0'], rest)
    else if isDigitChar c then
      some (c :: rest.takeWhile isDigitChar, rest.dropWhile isDigitChar)
    else none

/-- The optional fraction part `\.\d+` of the JSON number grammar. -/
def lexFrac (l : List Char) : List Char × List Char :=
  match l with
  | '.' :: rest =>
    let ds := rest.takeWhile isDigitChar
    if ds.isEmpty then ([], l) else ('.' :: ds, rest.dropWhile isDigitChar)
  | _ => ([], l)

/-- The optional exponent part `[eE][+-]?\d+` of the JSON number grammar. -/
def lexExp (l : List Char) : List Char × List Char :=
  match l with
  | [] => ([], l)
  | c :: rest =>
    if c = 'e' ∨ c = 'E' then
      match rest with
      | [] => ([], l)
      | s :: rest2 =>
        if s = '+' ∨ s = '-' then
          let ds := rest2.takeWhile isDigitChar
          if ds.isEmpty then ([], l) else (c :: s :: ds, rest2.dropWhile isDigitChar)
        else
          let ds := rest.takeWhile isDigitChar
          if ds.isEmpty then ([], l) else (c :: ds, rest.dropWhile isDigitChar)
    else ([], l)

/-- Lex a JSON number (Python's `NUMBER_RE`), returning its lexeme. -/
def lexNumber (l : List Char) : Option (List Char × List Char) :=
  match l with
  | '-' :: rest =>
    match lexIntPart rest with
    | some (ip, r1) =>
      let fr := lexFrac r1
      let ex := lexExp fr.2
      some ('-' :: (ip ++ fr.1 ++ ex.1), ex.2)
    | none => none
  | _ =>
    match lexIntPart l with
    | some (ip, r1) =>
      let fr := lexFrac r1
      let ex := lexExp fr.2
      some (ip ++ fr.1 ++ ex.1, ex.2)
    | none => none

mutual

/-- Parse one JSON value, as Python's scanner does: string, object, array,
`null` / `true` / `false`, number, or the Python extensions `NaN`,
`Infinity`, `-Infinity`.  The fuel argument bounds recursion depth; parsing
never needs more steps than characters consumed, so callers pass
`input length + 1`. -/
def parseValue : Nat → List Char → Option (JsonVal × List Char)
  | 0, _ => none
  | fuel + 1, l =>
    match l with
    | [] => none
    | '"' :: rest =>
      (lexString rest).map (fun st => (.str st.1, st.2))
    | '\x7b' :: rest =>
      match rest.dropWhile jsonWsChar with
      | '\x7d' :: r => some (.obj [], r)
      | '"' :: r => (parseMembers fuel r).map (fun st => (.obj st.1, st.2))
      | _ => none
    | '[' :: rest =>
      match rest.dropWhile jsonWsChar with
      | ']' :: r => some (.arr [], r)
      | s => (parseElems fuel s).map (fun st => (.arr st.1, st.2))
    | _ =>
      if pyStartswith (pystr ("null")) l then some (.null, l.drop 4)
      else if pyStartswith (pystr ("true")) l then some (.bool true, l.drop 4)
      else if pyStartswith (pystr ("false")) l then some (.bool false, l.drop 5)
      else
        match lexNumber l with
        | some (lx, t) => some (.num lx, t)
        | none =>
          if pyStartswith (pystr ("NaN")) l then some (.num (pystr ("NaN")), l.drop 3)
          else if pyStartswith (pystr ("Infinity")) l then some (.num (pystr ("Infinity")), l.drop 8)
          else if pyStartswith (pystr ("-Infinity")) l then some (.num (pystr ("-Infinity")), l.drop 9)
          else none

/-- Parse the members of a JSON object, positioned just after the opening
quote of a key.  Mirrors Python's `JSONObject`. -/
def parseMembers : Nat → List Char → Option (List (List Char × JsonVal) × List Char)
  | 0, _ => none
  | fuel + 1, l =>
    match lexString l with
    | none => none
    | some (key, r1) =>
      match r1.dropWhile jsonWsChar with
      | ':' :: r2 =>
        match parseValue fuel (r2.dropWhile jsonWsChar) with
        | none => none
        | some (v, r3) =>
          match r3.dropWhile jsonWsChar with
          | '\x7d' :: r4 => some ([(key, v)], r4)
          | ',' :: r4 =>
            match r4.dropWhile jsonWsChar with
            | '"' :: r5 => (parseMembers fuel r5).map (fun st => ((key, v) :: st.1, st.2))
            | _ => none
          | _ => none
      | _ => none

/-- Parse the elements of a non-empty JSON array.  Mirrors Python's
`JSONArray`. -/
def parseElems : Nat → List Char → Option (List JsonVal × List Char)
  | 0, _ => none
  | fuel + 1, l =>
    match parseValue fuel l with
    | none => none
    | some (v, r1) =>
      match r1.dropWhile jsonWsChar with
      | ']' :: r2 => some ([v], r2)
      | ',' :: r2 => (parseElems fuel (r2.dropWhile jsonWsChar)).map (fun st => (v :: st.1, st.2))
      | _ => none

end

/-- Python `json.loads`: skip leading whitespace, parse one value, require
only whitespace afterwards.  `none` models `json.JSONDecodeError`. -/
def jsonLoads (l : List Char) : Option JsonVal :=
  let s := l.dropWhile jsonWsChar
  match parseValue (s.length + 1) s with
  | some (v, rest) => if (rest.dropWhile jsonWsChar).isEmpty then some v else none
  | none => none

/-- Python `dict.get key default` on the parsed member list.  Later duplicate
keys overwrite earlier ones in a Python dict, hence the reversed search. -/
def pyDictGet (ms : List (List Char × JsonVal)) (key : List Char) (dflt : JsonVal) : JsonVal :=
  match ms.reverse.find? (fun m => m.1 == key) with
  | some m => m.2
  | none => dflt

/-- Capture `[^"]*` up to a closing quote; fails if no closing quote exists. -/
def captureNonQuote : List Char → Option (List Char)
  | [] => none
  | c :: rest => if c = '"' then some [] else (captureNonQuote rest).map (c :: ·)

/-- Try the regex `"<key>":\s*"([^"]*)"` anchored at the start of `s`. -/
def matchKVAt (key s : List Char) : Option (List Char) :=
  match dropLit ('"' :: (key ++ ['"', ':'])) s with
  | none => none
  | some r1 =>
    match r1.dropWhile pyWsChar with
    | '"' :: r2 => captureNonQuote r2
    | _ => none

/-- `re.search` for the pattern `"<key>":\s*"([^"]*)"`: first position wins,
returning the captured group. -/
def reSearchKV (key : List Char) : List Char → Option (List Char)
  | [] => none
  | c :: rest =>
    match matchKVAt key (c :: rest) with
    | some v => some v
    | none => reSearchKV key rest

/-- The regex fallback branch of `parse_ai_response` (src/main.py:233-241):
two independent searches over the raw text, defaulting to `"Not found"`. -/
def regexFallback (analysis : List Char) : JsonVal × JsonVal :=
  (match reSearchKV (pystr ("patient_id")) analysis with
   | some v => .str v
   | none => .str (pystr ("Not found")),
   match reSearchKV (pystr ("prescription")) analysis with
   | some v => .str v
   | none => .str (pystr ("Not found")))

/-- Cleaning stage of src/main.py:217-218: if the text starts with
```` ```json ````, drop those 7 characters. -/
def cleanDropJsonMark (c : List Char) : List Char :=
  if pyStartswith (pystr ("```json")) c then c.drop 7 else c

/-- Cleaning stage of src/main.py:219-220: if the text starts with
```` ``` ````, drop those 3 characters. -/
def cleanDropMark (c : List Char) : List Char :=
  if pyStartswith (pystr ("```")) c then c.drop 3 else c

/-- Cleaning stage of src/main.py:221-222: if the text ends with
```` ``` ````, drop the last 3 characters (`s[:-3]`). -/
def cleanDropEnd (c : List Char) : List Char :=
  if pyEndswith (pystr ("```")) c then c.take (c.length - 3) else c

/-- The cleaning pipeline of `parse_ai_response` (src/main.py:213-224):
strip, remove a leading ```` ```json ```` or ```` ``` ```` marker and a
trailing ```` ``` ```` marker, strip again. -/
def pyCleanResponse (analysis : List Char) : List Char :=
  pstrip (cleanDropEnd (cleanDropMark (cleanDropJsonMark (pstrip analysis))))

/-- `parse_ai_response` (src/main.py:210-241).  The `try` block catches only
`json.JSONDecodeError`; calling `.get` on a successfully parsed non-object
value raises an uncaught `AttributeError`, modelled as `.error`. -/
def parse_ai_response (analysis : List Char) : Except PyErr (JsonVal × JsonVal) :=
  match jsonLoads (pyCleanResponse analysis) with
  | some (.obj ms) =>
    .ok (pyDictGet ms (pystr ("patient_id")) (.str (pystr ("Not found"))),
         pyDictGet ms (pystr ("prescription")) (.str (pystr ("Not found"))))
  | some _ => .error (.attributeError (pystr ("object has no attribute get")))
  | none => .ok (regexFallback analysis)






/-- Result object built by `analyze_image_with_ai` (src/main.py:181-208). -/
structure AnalysisDict where
  analysis_date : List Char
  patient_id : JsonVal
  prescription : JsonVal
deriving Repr

/-- The fallback object of `analyze_image_with_ai`'s `except` branch
(src/main.py:202-208). -/
def analysisFallback (today : List Char) (e : PyErr) : AnalysisDict :=
  { analysis_date := today
    patient_id := .str (pystr ("Analysis failed"))
    prescription := .str (pystr ("Error occurred during analysis: ") ++ e.msg) }

/-- `analyze_image_with_ai` (src/main.py:181-208).  The upstream vision call
(`Image.open` + `model.generate_content`) is modelled by its outcome
`vision : Except PyErr (List Char)`; every exception in the `try` block —
including one raised by `parse_ai_response` itself — is caught and turned
into the fallback object. -/
def analyze_image_with_ai (vision : Except PyErr (List Char)) (today : List Char) : AnalysisDict :=
  match vision with
  | .error e => analysisFallback today e
  | .ok text =>
    match parse_ai_response text with
    | .error e => analysisFallback today e
    | .ok (p, r) => { analysis_date := today, patient_id := p, prescription := r }

/-- An HTTP error response (`HTTPException` / FastAPI error path). -/
structure HTTPError where
  status : Nat
  detail : List Char
deriving Repr, DecidableEq

/-- `POST /analyze-image` (src/main.py:443-471): reject non-image content
types with 400, otherwise always answer 200 with the analysis object. -/
def analyze_image_endpoint (contentType : Option (List Char))
    (vision : Except PyErr (List Char)) (today : List Char) :
    Except HTTPError AnalysisDict :=
  match contentType with
  | none => .error { status := 400, detail := pystr ("File must be an image") }
  | some ct =>
    if pyStartswith (pystr ("image/")) ct then .ok (analyze_image_with_ai vision today)
    else .error { status := 400, detail := pystr ("File must be an image") }

/-- Try the regex `(?:pid|patient)\s*(\d+)` anchored at the start of `s`,
with the alternation tried left to right as the `re` engine does; returns the
captured digit run. -/
def tryPidMatchAt (s : List Char) : Option (List Char) :=
  match
    (match dropLit (pystr ("pid")) s with
     | some r =>
       let r2 := r.dropWhile pyWsChar
       let ds := r2.takeWhile isDigitChar
       if ds.isEmpty then none else some ds
     | none => none)
  with
  | some ds => some ds
  | none =>
    match dropLit (pystr ("patient")) s with
    | some r =>
      let r2 := r.dropWhile pyWsChar
      let ds := r2.takeWhile isDigitChar
      if ds.isEmpty then none else some ds
    | none => none

/-- `re.search(r'(?:pid|patient)\s*(\d+)', ·)`: scan positions left to right,
first match wins. -/
def reSearchPid : List Char → Option (List Char)
  | [] => none
  | c :: rest =>
    match tryPidMatchAt (c :: rest) with
    | some ds => some ds
    | none => reSearchPid rest

/-- The query classification step of `vector_search_patients`
(src/main.py:337-343): lower-case the question, search for the PID pattern,
and parse the captured digits as an integer. -/
def classifyq (question : List Char) : Option Nat :=
  (reSearchPid (question.map pyLower)).map digitsToNat

/-- One row of the patients embedding table, as read from the warehouse. -/
structure PatientRow where
  PID : Int
  FirstName : List Char
  LastName : List Char
  Age : Int
  Gender : List Char
  Address : List Char
  FirstVisit : List Char
  Prescriptions : List Char
deriving Repr, DecidableEq

/-- One row returned by the external vector-search service, with its cosine
distance. -/
structure DistRow where
  PID : Int
  FirstName : List Char
  LastName : List Char
  Age : Int
  Gender : List Char
  Address : List Char
  Prescriptions : List Char
  distance : ℚ
deriving Repr, DecidableEq

/-- The external collaborators of the service: the warehouse read, the text
embedding call, and the vector-search call (each may raise). -/
structure Env where
  readTable : Except PyErr (List PatientRow)
  embed : List Char → Except PyErr Unit
  vsearch : List Char → Nat → Except PyErr (List DistRow)

/-- Search type tag of a `/vector-search` response body. -/
inductive SType where
  | pid_lookup
  | vector_search
  | error
deriving Repr, DecidableEq

/-- One formatted result entry of a `/vector-search` response.  The PID-lookup
branch includes `first_visit` and no `distance`; the semantic branch includes
`distance` and no `first_visit`; absent keys are `none`. -/
structure ResultEntry where
  pid : Int
  first_name : List Char
  last_name : List Char
  age : Int
  gender : List Char
  address : List Char
  first_visit : Option (List Char)
  prescriptions : List Char
  similarity : ℚ
  distance : Option ℚ
deriving Repr, DecidableEq

/-- A `/vector-search` response dictionary.  Keys the Python code does not put
into the dict are modelled as `none` (`total_results` is genuinely absent in
the PID-not-found branch, src/main.py:350-355). -/
structure SearchDict where
  search_type : SType
  query : List Char
  results : List ResultEntry
  message : Option (List Char)
  total_results : Option Nat
  search_date : Option (List Char)
  status_field : Option (List Char)
deriving Repr, DecidableEq

/-- Round half to even at integer precision (Python `round` semantics on the
exact value, modelled over `ℚ`). -/
def rhe (x : ℚ) : ℤ :=
  if x - ⌊x⌋ < 1 / 2 then ⌊x⌋
  else if 1 / 2 < x - ⌊x⌋ then ⌊x⌋ + 1
  else if ⌊x⌋ % 2 = 0 then ⌊x⌋ else ⌊x⌋ + 1

/-- Python `round(x, 1)`. -/
def pyRound1 (x : ℚ) : ℚ := (rhe (x * 10) : ℚ) / 10

/-- `similarity_percent = round((1 - distance) * 100, 1)` (src/main.py:402). -/
def similarity_percent (d : ℚ) : ℚ := pyRound1 ((1 - d) * 100)

/-- Insert a row into a list sorted by ascending distance. -/
def insertByDistance (r : DistRow) : List DistRow → List DistRow
  | [] => [r]
  | x :: xs => if r.distance ≤ x.distance then r :: x :: xs else x :: insertByDistance r xs

/-- `sort_values("distance")` (src/main.py:396): sort ascending by distance. -/
def sortByDistance : List DistRow → List DistRow
  | [] => []
  | x :: xs => insertByDistance x (sortByDistance xs)

/-- The result entry built for an exact PID match, with similarity fixed at
100.0 (src/main.py:364-374). -/
def pidEntry (p : PatientRow) : ResultEntry :=
  { pid := p.PID, first_name := p.FirstName, last_name := p.LastName,
    age := p.Age, gender := p.Gender, address := p.Address,
    first_visit := some p.FirstVisit, prescriptions := p.Prescriptions,
    similarity := 100, distance := none }

/-- The result entry built for a semantic search row (src/main.py:401-413). -/
def semEntry (r : DistRow) : ResultEntry :=
  { pid := r.PID, first_name := r.FirstName, last_name := r.LastName,
    age := r.Age, gender := r.Gender, address := r.Address,
    first_visit := none, prescriptions := r.Prescriptions,
    similarity := similarity_percent r.distance, distance := some r.distance }

/-- The direct PID lookup branch of `vector_search_patients`
(src/main.py:341-376): read the table, filter by PID, answer with zero or one
result.  Note the zero-result dict carries a `message` but no
`total_results` key. -/
def pidBranch (env : Env) (question : List Char) (pid : Nat) :
    Except HTTPError (Option SearchDict) :=
  match env.readTable with
  | .error e => .error { status := 500, detail := pystr ("Vector search error: ") ++ e.msg }
  | .ok tbl =>
    match tbl.filter (fun r => r.PID == (pid : Int)) with
    | [] =>
      .ok (some { search_type := .pid_lookup, query := question, results := [],
                  message := some (pystr ("No patient found with PID ") ++ pystr (toString pid)),
                  total_results := none, search_date := none, status_field := none })
    | p :: _ =>
      .ok (some { search_type := .pid_lookup, query := question, results := [pidEntry p],
                  message := none, total_results := some 1,
                  search_date := none, status_field := none })

/-- The semantic vector search branch of `vector_search_patients`
(src/main.py:378-420): embed the question, ask the external service for the
`top_k` nearest rows, sort ascending by distance and format. -/
def semBranch (env : Env) (question : List Char) (top_k : Nat) :
    Except HTTPError (Option SearchDict) :=
  match env.embed question with
  | .error e => .error { status := 500, detail := pystr ("Vector search error: ") ++ e.msg }
  | .ok _ =>
    match env.vsearch question top_k with
    | .error e => .error { status := 500, detail := pystr ("Vector search error: ") ++ e.msg }
    | .ok rows =>
      let formatted := (sortByDistance rows).map semEntry
      .ok (some { search_type := .vector_search, query := question, results := formatted,
                  message := none, total_results := some formatted.length,
                  search_date := none, status_field := none })

/-- `vector_search_patients` (src/main.py:331-423): classify the question,
then either a direct PID lookup or a semantic vector search. -/
def vector_search_patients (env : Env) (question : List Char) (top_k : Nat) :
    Except HTTPError (Option SearchDict) :=
  match classifyq question with
  | some pid => pidBranch env question pid
  | none => semBranch env question top_k

/-- A completed `/vector-search` HTTP response. -/
structure VSResponse where
  status : Nat
  body : SearchDict
deriving Repr, DecidableEq

/-- `POST /vector-search` (src/main.py:513-550): run the search; a `None`
result would become a 200 body with `search_type` "error"; otherwise the
dict is augmented with `search_date` and `status` and returned with 200. -/
def vector_search_endpoint (env : Env) (now : List Char) (query : List Char) (top_k : Nat) :
    Except HTTPError VSResponse :=
  match vector_search_patients env query top_k with
  | .error h => .error h
  | .ok none =>
    .ok { status := 200,
          body := { search_type := .error, query := query, results := [],
                    message := some (pystr ("No results found")), total_results := some 0,
                    search_date := none, status_field := none } }
  | .ok (some d) =>
    .ok { status := 200,
          body := { d with search_date := some now, status_field := some (pystr ("success")) } }

/-- The SQL pagination parameters of `GET /patients`. -/
structure SqlPage where
  limit : Int
  offset : Int
deriving Repr, DecidableEq

/-- The parameter validation of `get_all_patients` (src/main.py:570-580):
`limit = min(limit, 100)`, `offset = max(offset, 0)`, interpolated into the
`LIMIT {limit} OFFSET {offset}` clause of the warehouse query. -/
def get_all_patients_query (limit offset : Int) : SqlPage :=
  { limit := min limit 100, offset := max offset 0 }

/-- A listing-shaped record as returned by `/patients` and `/search`. -/
structure ListingRow where
  registrationNo : List Char
  firstName : List Char
  lastName : List Char
  age : Int
  gender : List Char
  address : List Char
  firstVisitDate : List Char
  prescriptions : List Char
deriving Repr, DecidableEq

/-- The listing projection of a warehouse row (src/main.py:686-695). -/
def listingEntry (r : PatientRow) : ListingRow :=
  { registrationNo := pystr (toString r.PID), firstName := r.FirstName,
    lastName := r.LastName, age := r.Age, gender := r.Gender,
    address := r.Address, firstVisitDate := r.FirstVisit,
    prescriptions := r.Prescriptions }

/-- Python substring containment `needle in hay` (`str.contains`). -/
def strContains (needle : List Char) : List Char → Bool
  | [] => needle.isEmpty
  | c :: rest => pyStartswith needle (c :: rest) || strContains needle rest

/-- Case-insensitive containment test used by `/search` (src/main.py:674-679):
does any of first name, last name, PID rendered as text, or address contain
the search term?  (pandas `str.contains` treats the term as a regular
expression; on terms without regex metacharacters, which is all the claims
exercise, that is literal substring containment as modelled here.) -/
def rowMatchesTerm (term : List Char) (r : PatientRow) : Bool :=
  strContains term (r.FirstName.map pyLower) ||
  strContains term (r.LastName.map pyLower) ||
  strContains term (pystr (toString r.PID)) ||
  strContains term (r.Address.map pyLower)

/-- Outcome of a `GET /search` call, recording whether the warehouse read was
ever attempted. -/
structure SearchTrace where
  warehouseCalled : Bool
  response : Except HTTPError (List ListingRow)
deriving Repr

/-- `GET /search` (src/main.py:655-702): a blank query is rejected with 400
before the warehouse read; otherwise the table is read and filtered. -/
def search_patients_endpoint (env : Env) (q : List Char) : SearchTrace :=
  if (pstrip q).isEmpty then
    { warehouseCalled := false,
      response := .error { status := 400, detail := pystr ("Query parameter q is required") } }
  else
    match env.readTable with
    | .error e =>
      { warehouseCalled := true,
        response := .error { status := 500, detail := pystr ("Failed to search patients: ") ++ e.msg } }
    | .ok tbl =>
      let term := pstrip (q.map pyLower)
      { warehouseCalled := true,
        response := .ok ((tbl.filter (rowMatchesTerm term)).map listingEntry) }


/-- A character that needs no escaping inside a JSON string literal: not a
quote, not a backslash, not a control character. -/
def jsonPlainChar (c : Char) : Bool :=
  !(decide (c = '"')) && !(decide (c = '\\')) && !(decide (c.toNat < 32))

/-- All characters of the list are plain JSON string characters. -/
def JsonPlain (l : List Char) : Prop := ∀ c ∈ l, jsonPlainChar c = true

instance (l : List Char) : Decidable (JsonPlain l) :=
  inferInstanceAs (Decidable (∀ c ∈ l, jsonPlainChar c = true))

/-- The serialized object `{"patient_id":"X","prescription":"Y"}` quantified
over by claim C1 (right-nested appends). -/
def mkJson (X Y : List Char) : List Char :=
  pystr ("\x7b\"patient_id\":\"") ++
    (X ++ (pystr ("\",\"prescription\":\"") ++ (Y ++ pystr ("\"\x7d"))))

/-- The serialized object `{"patient_id":"X"}` with the prescription key
absent. -/
def mkJsonPidOnly (X : List Char) : List Char :=
  pystr ("\x7b\"patient_id\":\"") ++ (X ++ pystr ("\"\x7d"))

/-- The serialized object `{"prescription":"Y"}` with the patient_id key
absent. -/
def mkJsonPrescOnly (Y : List Char) : List Char :=
  pystr ("\x7b\"prescription\":\"") ++ (Y ++ pystr ("\"\x7d"))

/-- `FenceWrap s w`: `w` is `s` optionally wrapped in fenced-code markers
(```` ``` ```` or ```` ```json ````, with or without newlines around the
payload). -/
inductive FenceWrap (s : List Char) : List Char → Prop where
  | plain : FenceWrap s s
  | fenced : FenceWrap s (pystr ("```") ++ (s ++ pystr ("```")))
  | fencedNl : FenceWrap s (pystr ("```" ++ "\n") ++ (s ++ pystr ("\n" ++ "```")))
  | fencedJson : FenceWrap s (pystr ("```json") ++ (s ++ pystr ("```")))
  | fencedJsonNl : FenceWrap s (pystr ("```json" ++ "\n") ++ (s ++ pystr ("\n" ++ "```")))

/-- Whether an optional JSON parse outcome is compatible with calling `.get`
on it: either the parse failed, or it produced an object. -/
def optIsObjOk : Option JsonVal → Bool
  | some v => v.isObj
  | none => true

/-- The ordering on vector-search rows used by the distance sort. -/
def distLe (a b : DistRow) : Prop := a.distance ≤ b.distance

/-- A concrete patient row used to instantiate theorems about the search
endpoints. -/
def rowAlice : PatientRow :=
  { PID := 42, FirstName := pystr ("Alice"), LastName := pystr ("Smith"),
    Age := 30, Gender := pystr ("F"), Address := pystr ("Berlin"),
    FirstVisit := pystr ("2020-01-01"), Prescriptions := pystr ("Arnica 30") }

/-- A concrete vector-search result row with cosine distance 1/4. -/
def distRowBob : DistRow :=
  { PID := 7, FirstName := pystr ("Bob"), LastName := pystr ("Stone"),
    Age := 55, Gender := pystr ("M"), Address := pystr ("Paris"),
    Prescriptions := pystr ("Bryonia 200"), distance := 1 / 4 }

/-- A concrete environment whose table holds one patient (PID 42) and whose
vector search returns one row. -/
def envW : Env :=
  { readTable := .ok [rowAlice],
    embed := fun _ => .ok (),
    vsearch := fun _ _ => .ok [distRowBob] }

/-- A concrete environment with an empty patients table. -/
def envEmpty : Env :=
  { readTable := .ok [],
    embed := fun _ => .ok (),
    vsearch := fun _ _ => .ok [] }

/-- The `/vector-search` dictionary produced by the PID-lookup branch for
`"patient 42"` against `envW`. -/
def dictAlice : SearchDict :=
  { search_type := .pid_lookup, query := pystr ("patient 42"),
    results := [pidEntry rowAlice], message := none, total_results := some 1,
    search_date := none, status_field := none }

/-- The `/vector-search` dictionary produced by the semantic branch for
`"joint pain"` against `envW`. -/
def dictBob : SearchDict :=
  { search_type := .vector_search, query := pystr ("joint pain"),
    results := [semEntry distRowBob], message := none, total_results := some 1,
    search_date := none, status_field := none }

/-! ### Helper lemmas -/

lemma take_len_concat (u v : List Char) (k : Nat) :
    (u ++ v).take (u.length + k) = u ++ v.take k := by
  induction u with
  | nil => simp
  | cons a u ih => simp [List.cons_append, List.length_cons, Nat.succ_add, ih]

lemma lexString_plain (X : List Char) (hX : JsonPlain X) (t : List Char) :
    lexString (X ++ '"' :: t) = some (X, t) := by
  induction X with
  | nil => rfl
  | cons c X ih =>
    have hc := hX c (List.mem_cons_self c X)
    simp only [jsonPlainChar, Bool.and_eq_true, Bool.not_eq_true', decide_eq_false_iff_not] at hc
    obtain ⟨⟨h1, h2⟩, h3⟩ := hc
    have ih' := ih (fun d hd => hX d (List.mem_cons_of_mem c hd))
    rw [List.cons_append]
    simp [lexString, h1, h2, h3, ih']

lemma parseValue_mkJson (X Y : List Char) (hX : JsonPlain X) (hY : JsonPlain Y) (n : Nat) :
    parseValue (n + 4) (mkJson X Y) =
      some (.obj [(pystr ("patient_id"), .str X), (pystr ("prescription"), .str Y)], []) := by
  show parseValue (n + 4)
      ('\x7b' :: '"' :: 'p' :: 'a' :: 't' :: 'i' :: 'e' :: 'n' :: 't' :: '_' :: 'i' :: 'd' ::
        '"' :: ':' :: '"' ::
        (X ++ ('"' :: ',' :: '"' :: 'p' :: 'r' :: 'e' :: 's' :: 'c' :: 'r' :: 'i' :: 'p' ::
          't' :: 'i' :: 'o' :: 'n' :: '"' :: ':' :: '"' :: (Y ++ ('"' :: '\x7d' :: []))))) = _
  simp [parseValue, parseMembers, lexString, List.dropWhile, jsonWsChar,
    lexString_plain X hX, lexString_plain Y hY, pystr]

lemma pstrip_cons_concat (a b : Char) (m : List Char)
    (ha : pyWsChar a = false) (hb : pyWsChar b = false) :
    pstrip (a :: (m ++ [b])) = a :: (m ++ [b]) := by
  unfold pstrip
  rw [List.dropWhile_cons, ha]
  simp only [Bool.false_eq_true, if_false]
  rw [show a :: (m ++ [b]) = (a :: m) ++ [b] from rfl]
  rw [List.rdropWhile_concat_neg _ _ _ (by simp [hb])]

lemma pyEndswith_fence_brace (m : List Char) :
    pyEndswith (pystr ("```")) ('\x7b' :: (m ++ ['\x7d'])) = false := by
  unfold pyEndswith
  rw [show (pystr ("```")).reverse = '`' :: '`' :: '`' :: [] from rfl,
      List.reverse_cons, List.reverse_append,
      show (['\x7d'] : List Char).reverse = ['\x7d'] from rfl]
  rfl

lemma pyEndswith_fence_tick (u : List Char) :
    pyEndswith (pystr ("```")) (u ++ pystr ("```")) = true := by
  unfold pyEndswith
  rw [List.reverse_append, show (pystr ("```")).reverse = '`' :: '`' :: '`' :: [] from rfl]
  rfl
lemma pyEndswith_fence_nl (u : List Char) :
    pyEndswith (pystr ("```")) ('\n' :: (u ++ pystr ("\n" ++ "```"))) = true := by
  unfold pyEndswith
  rw [List.reverse_cons, List.reverse_append,
      show (pystr ("\n" ++ "```")).reverse = '`' :: '`' :: '`' :: '\n' :: [] from rfl]
  rfl

lemma take_strip_fence (u : List Char) :
    (u ++ pystr ("```")).take ((u ++ pystr ("```")).length - 3) = u := by
  rw [show (pystr ("```")) = '`' :: '`' :: '`' :: [] from rfl, List.length_append]
  simp only [List.length_cons, List.length_nil]
  rw [show u.length + (0 + 1 + 1 + 1) - 3 = u.length + 0 from by omega, take_len_concat]
  simp

lemma take_strip_fence_nl (u : List Char) :
    ('\n' :: (u ++ pystr ("\n" ++ "```"))).take
        (('\n' :: (u ++ pystr ("\n" ++ "```"))).length - 3) = '\n' :: (u ++ ['\n']) := by
  rw [show (pystr ("\n" ++ "```")) = '\n' :: '`' :: '`' :: '`' :: [] from rfl,
      List.length_cons, List.length_append]
  simp only [List.length_cons, List.length_nil]
  rw [show u.length + (0 + 1 + 1 + 1 + 1) + 1 - 3 = (u.length + 1) + 1 from by omega,
      List.take_succ_cons, take_len_concat]
  rfl

lemma pstrip_nl_wrap (m : List Char) :
    pstrip ('\n' :: (('\x7b' :: (m ++ ['\x7d'])) ++ ['\n'])) = '\x7b' :: (m ++ ['\x7d']) := by
  unfold pstrip
  rw [show List.dropWhile pyWsChar ('\n' :: (('\x7b' :: (m ++ ['\x7d'])) ++ ['\n'])) =
      '\x7b' :: ((m ++ ['\x7d']) ++ ['\n']) from rfl]
  rw [show '\x7b' :: ((m ++ ['\x7d']) ++ ['\n']) = ('\x7b' :: (m ++ ['\x7d'])) ++ ['\n'] from rfl]
  rw [List.rdropWhile_concat_pos _ _ _ (by rfl)]
  rw [show '\x7b' :: (m ++ ['\x7d']) = ('\x7b' :: m) ++ ['\x7d'] from rfl]
  rw [List.rdropWhile_concat_neg _ _ _ (by simp [pyWsChar])]

/-- `pstrip` is the identity on a list whose first and last characters are
not whitespace. -/
lemma pstrip_eq_self (l : List Char) (a b : Char) (hha : l.head? = some a)
    (ha : pyWsChar a = false) (hhb : l.getLast? = some b) (hb : pyWsChar b = false) :
    pstrip l = l := by
  unfold pstrip
  have h1 : l.dropWhile pyWsChar = l := by
    rw [List.dropWhile_eq_self_iff]
    intro hl
    cases l with
    | nil => simp at hl
    | cons x xs =>
      simp only [List.head?] at hha
      cases hha
      simp [List.get, ha]
  rw [h1, List.rdropWhile_eq_self_iff]
  intro hl
  have hg : l.getLast hl = b := by
    have := List.getLast?_eq_getLast l hl
    rw [this] at hhb
    exact Option.some.inj hhb
  simp [hg, hb]

lemma getLast?_wrap (A s B : List Char) (hB : B ≠ []) :
    (A ++ (s ++ B)).getLast? = B.getLast? := by
  rw [List.getLast?_append_of_ne_nil A (fun h => hB (List.append_eq_nil.mp h).2),
      List.getLast?_append_of_ne_nil s hB]

/-- The cleaning pipeline maps every fenced wrapping of a brace-delimited
payload back to the payload itself. -/
lemma clean_of_wrap {s w : List Char} (hm : ∃ m, s = '\x7b' :: (m ++ ['\x7d']))
    (hw : FenceWrap s w) : pyCleanResponse w = s := by
  obtain ⟨m, rfl⟩ := hm
  unfold pyCleanResponse
  cases hw with
  | plain =>
    rw [pstrip_cons_concat '\x7b' '\x7d' m rfl rfl]
    rw [show cleanDropJsonMark ('\x7b' :: (m ++ ['\x7d'])) = '\x7b' :: (m ++ ['\x7d']) from by
      unfold cleanDropJsonMark
      rw [show pyStartswith (pystr ("```json")) ('\x7b' :: (m ++ ['\x7d'])) = false from rfl]
      simp]
    rw [show cleanDropMark ('\x7b' :: (m ++ ['\x7d'])) = '\x7b' :: (m ++ ['\x7d']) from by
      unfold cleanDropMark
      rw [show pyStartswith (pystr ("```")) ('\x7b' :: (m ++ ['\x7d'])) = false from rfl]
      simp]
    rw [show cleanDropEnd ('\x7b' :: (m ++ ['\x7d'])) = '\x7b' :: (m ++ ['\x7d']) from by
      unfold cleanDropEnd
      rw [pyEndswith_fence_brace m]
      simp]
    exact pstrip_cons_concat '\x7b' '\x7d' m rfl rfl
  | fenced =>
    have hlast : (pystr ("```") ++ (('\x7b' :: (m ++ ['\x7d'])) ++ pystr ("```"))).getLast? =
        some '`' := by
      rw [getLast?_wrap _ _ _ (by decide)]
      rfl
    rw [pstrip_eq_self (pystr ("```") ++ (('\x7b' :: (m ++ ['\x7d'])) ++ pystr ("```")))
      '`' '`' rfl rfl hlast rfl]
    rw [show cleanDropJsonMark (pystr ("```") ++ (('\x7b' :: (m ++ ['\x7d'])) ++ pystr ("```"))) =
        pystr ("```") ++ (('\x7b' :: (m ++ ['\x7d'])) ++ pystr ("```")) from by
      unfold cleanDropJsonMark
      rw [show pyStartswith (pystr ("```json"))
          (pystr ("```") ++ (('\x7b' :: (m ++ ['\x7d'])) ++ pystr ("```"))) = false from rfl]
      simp]
    rw [show cleanDropMark (pystr ("```") ++ (('\x7b' :: (m ++ ['\x7d'])) ++ pystr ("```"))) =
        ('\x7b' :: (m ++ ['\x7d'])) ++ pystr ("```") from by
      unfold cleanDropMark
      rw [show pyStartswith (pystr ("```"))
          (pystr ("```") ++ (('\x7b' :: (m ++ ['\x7d'])) ++ pystr ("```"))) = true from rfl]
      rfl]
    rw [show cleanDropEnd (('\x7b' :: (m ++ ['\x7d'])) ++ pystr ("```")) =
        '\x7b' :: (m ++ ['\x7d']) from by
      unfold cleanDropEnd
      rw [pyEndswith_fence_tick, if_pos rfl, take_strip_fence]]
    exact pstrip_cons_concat '\x7b' '\x7d' m rfl rfl
  | fencedNl =>
    have hlast : (pystr ("```" ++ "\n") ++
        (('\x7b' :: (m ++ ['\x7d'])) ++ pystr ("\n" ++ "```"))).getLast? = some '`' := by
      rw [getLast?_wrap _ _ _ (by decide)]
      rfl
    rw [pstrip_eq_self (pystr ("```" ++ "\n") ++
      (('\x7b' :: (m ++ ['\x7d'])) ++ pystr ("\n" ++ "```"))) '`' '`' rfl rfl hlast rfl]
    rw [show cleanDropJsonMark (pystr ("```" ++ "\n") ++
        (('\x7b' :: (m ++ ['\x7d'])) ++ pystr ("\n" ++ "```"))) =
        pystr ("```" ++ "\n") ++ (('\x7b' :: (m ++ ['\x7d'])) ++ pystr ("\n" ++ "```")) from by
      unfold cleanDropJsonMark
      rw [show pyStartswith (pystr ("```json")) (pystr ("```" ++ "\n") ++
          (('\x7b' :: (m ++ ['\x7d'])) ++ pystr ("\n" ++ "```"))) = false from rfl]
      simp]
    rw [show cleanDropMark (pystr ("```" ++ "\n") ++
        (('\x7b' :: (m ++ ['\x7d'])) ++ pystr ("\n" ++ "```"))) =
        '\n' :: (('\x7b' :: (m ++ ['\x7d'])) ++ pystr ("\n" ++ "```")) from by
      unfold cleanDropMark
      rw [show pyStartswith (pystr ("```")) (pystr ("```" ++ "\n") ++
          (('\x7b' :: (m ++ ['\x7d'])) ++ pystr ("\n" ++ "```"))) = true from rfl]
      rfl]
    rw [show cleanDropEnd ('\n' :: (('\x7b' :: (m ++ ['\x7d'])) ++ pystr ("\n" ++ "```"))) =
        '\n' :: (('\x7b' :: (m ++ ['\x7d'])) ++ ['\n']) from by
      unfold cleanDropEnd
      rw [pyEndswith_fence_nl, if_pos rfl, take_strip_fence_nl]]
    exact pstrip_nl_wrap m
  | fencedJson =>
    have hlast : (pystr ("```json") ++
        (('\x7b' :: (m ++ ['\x7d'])) ++ pystr ("```"))).getLast? = some '`' := by
      rw [getLast?_wrap _ _ _ (by decide)]
      rfl
    rw [pstrip_eq_self (pystr ("```json") ++ (('\x7b' :: (m ++ ['\x7d'])) ++ pystr ("```")))
      '`' '`' rfl rfl hlast rfl]
    rw [show cleanDropJsonMark (pystr ("```json") ++
        (('\x7b' :: (m ++ ['\x7d'])) ++ pystr ("```"))) =
        ('\x7b' :: (m ++ ['\x7d'])) ++ pystr ("```") from by
      unfold cleanDropJsonMark
      rw [show pyStartswith (pystr ("```json"))
          (pystr ("```json") ++ (('\x7b' :: (m ++ ['\x7d'])) ++ pystr ("```"))) = true from rfl]
      rfl]
    rw [show cleanDropMark (('\x7b' :: (m ++ ['\x7d'])) ++ pystr ("```")) =
        ('\x7b' :: (m ++ ['\x7d'])) ++ pystr ("```") from by
      unfold cleanDropMark
      rw [show pyStartswith (pystr ("```"))
          (('\x7b' :: (m ++ ['\x7d'])) ++ pystr ("```")) = false from rfl]
      simp]
    rw [show cleanDropEnd (('\x7b' :: (m ++ ['\x7d'])) ++ pystr ("```")) =
        '\x7b' :: (m ++ ['\x7d']) from by
      unfold cleanDropEnd
      rw [pyEndswith_fence_tick, if_pos rfl, take_strip_fence]]
    exact pstrip_cons_concat '\x7b' '\x7d' m rfl rfl
  | fencedJsonNl =>
    have hlast : (pystr ("```json" ++ "\n") ++
        (('\x7b' :: (m ++ ['\x7d'])) ++ pystr ("\n" ++ "```"))).getLast? = some '`' := by
      rw [getLast?_wrap _ _ _ (by decide)]
      rfl
    rw [pstrip_eq_self (pystr ("```json" ++ "\n") ++
      (('\x7b' :: (m ++ ['\x7d'])) ++ pystr ("\n" ++ "```"))) '`' '`' rfl rfl hlast rfl]
    rw [show cleanDropJsonMark (pystr ("```json" ++ "\n") ++
        (('\x7b' :: (m ++ ['\x7d'])) ++ pystr ("\n" ++ "```"))) =
        '\n' :: (('\x7b' :: (m ++ ['\x7d'])) ++ pystr ("\n" ++ "```")) from by
      unfold cleanDropJsonMark
      rw [show pyStartswith (pystr ("```json")) (pystr ("```json" ++ "\n") ++
          (('\x7b' :: (m ++ ['\x7d'])) ++ pystr ("\n" ++ "```"))) = true from rfl]
      rfl]
    rw [show cleanDropMark ('\n' :: (('\x7b' :: (m ++ ['\x7d'])) ++ pystr ("\n" ++ "```"))) =
        '\n' :: (('\x7b' :: (m ++ ['\x7d'])) ++ pystr ("\n" ++ "```")) from by
      unfold cleanDropMark
      rw [show pyStartswith (pystr ("```"))
          ('\n' :: (('\x7b' :: (m ++ ['\x7d'])) ++ pystr ("\n" ++ "```"))) = false from rfl]
      simp]
    rw [show cleanDropEnd ('\n' :: (('\x7b' :: (m ++ ['\x7d'])) ++ pystr ("\n" ++ "```"))) =
        '\n' :: (('\x7b' :: (m ++ ['\x7d'])) ++ ['\n']) from by
      unfold cleanDropEnd
      rw [pyEndswith_fence_nl, if_pos rfl, take_strip_fence_nl]]
    exact pstrip_nl_wrap m

lemma parseValue_mkJsonPidOnly (X : List Char) (hX : JsonPlain X) (n : Nat) :
    parseValue (n + 3) (mkJsonPidOnly X) =
      some (.obj [(pystr ("patient_id"), .str X)], []) := by
  show parseValue (n + 3)
      ('\x7b' :: '"' :: 'p' :: 'a' :: 't' :: 'i' :: 'e' :: 'n' :: 't' :: '_' :: 'i' :: 'd' ::
        '"' :: ':' :: '"' :: (X ++ ('"' :: '\x7d' :: []))) = _
  simp [parseValue, parseMembers, lexString, List.dropWhile, jsonWsChar,
    lexString_plain X hX, pystr]

lemma parseValue_mkJsonPrescOnly (Y : List Char) (hY : JsonPlain Y) (n : Nat) :
    parseValue (n + 3) (mkJsonPrescOnly Y) =
      some (.obj [(pystr ("prescription"), .str Y)], []) := by
  show parseValue (n + 3)
      ('\x7b' :: '"' :: 'p' :: 'r' :: 'e' :: 's' :: 'c' :: 'r' :: 'i' :: 'p' :: 't' :: 'i' ::
        'o' :: 'n' :: '"' :: ':' :: '"' :: (Y ++ ('"' :: '\x7d' :: []))) = _
  simp [parseValue, parseMembers, lexString, List.dropWhile, jsonWsChar,
    lexString_plain Y hY, pystr]

lemma jsonLoads_mkJson (X Y : List Char) (hX : JsonPlain X) (hY : JsonPlain Y) :
    jsonLoads (mkJson X Y) =
      some (.obj [(pystr ("patient_id"), .str X), (pystr ("prescription"), .str Y)]) := by
  unfold jsonLoads
  rw [show List.dropWhile jsonWsChar (mkJson X Y) = mkJson X Y from rfl]
  have hlen : (mkJson X Y).length + 1 = (X.length + Y.length + 32) + 4 := by
    show ('\x7b' :: '"' :: 'p' :: 'a' :: 't' :: 'i' :: 'e' :: 'n' :: 't' :: '_' :: 'i' :: 'd' ::
        '"' :: ':' :: '"' ::
        (X ++ ('"' :: ',' :: '"' :: 'p' :: 'r' :: 'e' :: 's' :: 'c' :: 'r' :: 'i' :: 'p' ::
          't' :: 'i' :: 'o' :: 'n' :: '"' :: ':' :: '"' ::
          (Y ++ ('"' :: '\x7d' :: []))))).length + 1 = _
    simp [List.length_cons, List.length_append]
    omega
  simp only [hlen, parseValue_mkJson X Y hX hY]
  rfl

lemma jsonLoads_mkJsonPidOnly (X : List Char) (hX : JsonPlain X) :
    jsonLoads (mkJsonPidOnly X) = some (.obj [(pystr ("patient_id"), .str X)]) := by
  unfold jsonLoads
  rw [show List.dropWhile jsonWsChar (mkJsonPidOnly X) = mkJsonPidOnly X from rfl]
  have hlen : (mkJsonPidOnly X).length + 1 = (X.length + 15) + 3 := by
    show ('\x7b' :: '"' :: 'p' :: 'a' :: 't' :: 'i' :: 'e' :: 'n' :: 't' :: '_' :: 'i' :: 'd' ::
        '"' :: ':' :: '"' :: (X ++ ('"' :: '\x7d' :: []))).length + 1 = _
    simp [List.length_cons, List.length_append]
  simp only [hlen, parseValue_mkJsonPidOnly X hX]
  rfl

lemma jsonLoads_mkJsonPrescOnly (Y : List Char) (hY : JsonPlain Y) :
    jsonLoads (mkJsonPrescOnly Y) = some (.obj [(pystr ("prescription"), .str Y)]) := by
  unfold jsonLoads
  rw [show List.dropWhile jsonWsChar (mkJsonPrescOnly Y) = mkJsonPrescOnly Y from rfl]
  have hlen : (mkJsonPrescOnly Y).length + 1 = (Y.length + 17) + 3 := by
    show ('\x7b' :: '"' :: 'p' :: 'r' :: 'e' :: 's' :: 'c' :: 'r' :: 'i' :: 'p' :: 't' :: 'i' ::
        'o' :: 'n' :: '"' :: ':' :: '"' :: (Y ++ ('"' :: '\x7d' :: []))).length + 1 = _
    simp [List.length_cons, List.length_append]
  simp only [hlen, parseValue_mkJsonPrescOnly Y hY]
  rfl

lemma mkJson_shape (X Y : List Char) : ∃ m, mkJson X Y = '\x7b' :: (m ++ ['\x7d']) := by
  refine ⟨'"' :: 'p' :: 'a' :: 't' :: 'i' :: 'e' :: 'n' :: 't' :: '_' :: 'i' :: 'd' ::
    '"' :: ':' :: '"' ::
    (X ++ ('"' :: ',' :: '"' :: 'p' :: 'r' :: 'e' :: 's' :: 'c' :: 'r' :: 'i' :: 'p' ::
      't' :: 'i' :: 'o' :: 'n' :: '"' :: ':' :: '"' :: (Y ++ ['"']))), ?_⟩
  show '\x7b' :: '"' :: 'p' :: 'a' :: 't' :: 'i' :: 'e' :: 'n' :: 't' :: '_' :: 'i' :: 'd' ::
      '"' :: ':' :: '"' ::
      (X ++ ('"' :: ',' :: '"' :: 'p' :: 'r' :: 'e' :: 's' :: 'c' :: 'r' :: 'i' :: 'p' ::
        't' :: 'i' :: 'o' :: 'n' :: '"' :: ':' :: '"' :: (Y ++ ('"' :: '\x7d' :: [])))) = _
  simp [List.cons_append, List.append_assoc]

lemma mkJsonPidOnly_shape (X : List Char) :
    ∃ m, mkJsonPidOnly X = '\x7b' :: (m ++ ['\x7d']) := by
  refine ⟨'"' :: 'p' :: 'a' :: 't' :: 'i' :: 'e' :: 'n' :: 't' :: '_' :: 'i' :: 'd' ::
    '"' :: ':' :: '"' :: (X ++ ['"']), ?_⟩
  show '\x7b' :: '"' :: 'p' :: 'a' :: 't' :: 'i' :: 'e' :: 'n' :: 't' :: '_' :: 'i' :: 'd' ::
      '"' :: ':' :: '"' :: (X ++ ('"' :: '\x7d' :: [])) = _
  simp [List.cons_append, List.append_assoc]

lemma mkJsonPrescOnly_shape (Y : List Char) :
    ∃ m, mkJsonPrescOnly Y = '\x7b' :: (m ++ ['\x7d']) := by
  refine ⟨'"' :: 'p' :: 'r' :: 'e' :: 's' :: 'c' :: 'r' :: 'i' :: 'p' :: 't' :: 'i' :: 'o' ::
    'n' :: '"' :: ':' :: '"' :: (Y ++ ['"']), ?_⟩
  show '\x7b' :: '"' :: 'p' :: 'r' :: 'e' :: 's' :: 'c' :: 'r' :: 'i' :: 'p' :: 't' :: 'i' ::
      'o' :: 'n' :: '"' :: ':' :: '"' :: (Y ++ ('"' :: '\x7d' :: [])) = _
  simp [List.cons_append, List.append_assoc]

/-! ### Claim theorems -/

/-- C1: for every input text that is a well-formed JSON object
`{"patient_id":"X","prescription":"Y"}`, possibly wrapped in fenced-code
markers (``` or ```json), `parse_ai_response` returns exactly the pair
(X, Y); if a key is absent from the parsed object, the corresponding
component is the literal string "Not found". -/
theorem C1_response_normalizer_wellformed :
    (∀ X Y w, JsonPlain X → JsonPlain Y → FenceWrap (mkJson X Y) w →
      parse_ai_response w = .ok (.str X, .str Y)) ∧
    (∀ X w, JsonPlain X → FenceWrap (mkJsonPidOnly X) w →
      parse_ai_response w = .ok (.str X, .str (pystr ("Not found")))) ∧
    (∀ Y w, JsonPlain Y → FenceWrap (mkJsonPrescOnly Y) w →
      parse_ai_response w = .ok (.str (pystr ("Not found")), .str Y)) := by
  refine ⟨fun X Y w hX hY hw => ?_, fun X w hX hw => ?_, fun Y w hY hw => ?_⟩
  · unfold parse_ai_response
    rw [clean_of_wrap (mkJson_shape X Y) hw, jsonLoads_mkJson X Y hX hY]
    rfl
  · unfold parse_ai_response
    rw [clean_of_wrap (mkJsonPidOnly_shape X) hw, jsonLoads_mkJsonPidOnly X hX]
    rfl
  · unfold parse_ai_response
    rw [clean_of_wrap (mkJsonPrescOnly_shape Y) hw, jsonLoads_mkJsonPrescOnly Y hY]
    rfl

/-- Witness for C1 at a concrete fenced input. -/
theorem C1_witness :
    parse_ai_response (pystr ("```json" ++ "\n") ++
        (mkJson (pystr ("12345")) (pystr ("Arnica 30")) ++ pystr ("\n" ++ "```"))) =
      .ok (.str (pystr ("12345")), .str (pystr ("Arnica 30"))) :=
  C1_response_normalizer_wellformed.1 (pystr ("12345")) (pystr ("Arnica 30")) _
    (by decide) (by decide) FenceWrap.fencedJsonNl

/-- C2 counterexample: the claim "parse_ai_response never raises" is false.
On the input `"[1]"` the cleaned text parses as a JSON array, and calling
`.get` on the resulting Python list raises an uncaught `AttributeError`. -/
theorem C2_counterexample :
    parse_ai_response (pystr ("[1]")) =
      .error (.attributeError (pystr ("object has no attribute get"))) := rfl

/-- C2 (amended): for every input string whose cleaned text does not parse
as a non-object JSON value, `parse_ai_response` returns normally; on
strict-JSON parse failure it falls back to the regex searches over the raw
text, and with neither pattern present it returns ("Not found", "Not found"). -/
theorem C2_normalizer_total_fallback (s : List Char)
    (h : optIsObjOk (jsonLoads (pyCleanResponse s)) = true) :
    (parse_ai_response s).isOk = true ∧
    (jsonLoads (pyCleanResponse s) = none → parse_ai_response s = .ok (regexFallback s)) ∧
    (jsonLoads (pyCleanResponse s) = none →
      reSearchKV (pystr ("patient_id")) s = none →
      reSearchKV (pystr ("prescription")) s = none →
      parse_ai_response s = .ok (.str (pystr ("Not found")), .str (pystr ("Not found")))) := by
  unfold parse_ai_response
  cases hj : jsonLoads (pyCleanResponse s) with
  | none =>
    refine ⟨rfl, fun _ => rfl, fun _ h1 h2 => ?_⟩
    unfold regexFallback
    rw [h1, h2]
  | some v =>
    rw [hj] at h
    cases v with
    | obj ms =>
      exact ⟨rfl, fun hn => Option.noConfusion hn, fun hn _ _ => Option.noConfusion hn⟩
    | str a => exact absurd h (by simp [optIsObjOk, JsonVal.isObj])
    | num a => exact absurd h (by simp [optIsObjOk, JsonVal.isObj])
    | bool b => exact absurd h (by simp [optIsObjOk, JsonVal.isObj])
    | null => exact absurd h (by simp [optIsObjOk, JsonVal.isObj])
    | arr es => exact absurd h (by simp [optIsObjOk, JsonVal.isObj])

/-- Witness for C2 (amended) at a concrete input with no JSON and no
key-value patterns. -/
theorem C2_witness :
    (parse_ai_response (pystr ("no json here"))).isOk = true ∧
    (jsonLoads (pyCleanResponse (pystr ("no json here"))) = none →
      parse_ai_response (pystr ("no json here")) =
        .ok (regexFallback (pystr ("no json here")))) ∧
    (jsonLoads (pyCleanResponse (pystr ("no json here"))) = none →
      reSearchKV (pystr ("patient_id")) (pystr ("no json here")) = none →
      reSearchKV (pystr ("prescription")) (pystr ("no json here")) = none →
      parse_ai_response (pystr ("no json here")) =
        .ok (.str (pystr ("Not found")), .str (pystr ("Not found")))) :=
  C2_normalizer_total_fallback (pystr ("no json here")) rfl

/-- C3: the Query Classifier lower-cases the query and searches for `pid` or
`patient` followed by optional whitespace and a digit run; the first match's
digits become the identifier and the mode is a direct PID lookup, otherwise
the full original query is forwarded to the semantic search branch.  In
particular "show me patient 42" is a lookup of 42 and "patients with joint
pain" is a semantic search. -/
theorem C3_query_classifier :
    classifyq (pystr ("show me patient 42")) = some 42 ∧
    classifyq (pystr ("patients with joint pain")) = none ∧
    (∀ q, classifyq q = (reSearchPid (q.map pyLower)).map digitsToNat) ∧
    (∀ env k q n, classifyq q = some n →
      vector_search_patients env q k = pidBranch env q n) ∧
    (∀ env k q, classifyq q = none →
      vector_search_patients env q k = semBranch env q k) := by
  refine ⟨rfl, rfl, fun q => rfl, fun env k q n h => ?_, fun env k q h => ?_⟩
  · unfold vector_search_patients
    rw [h]
  · unfold vector_search_patients
    rw [h]

/-- Witness for C3: the dispatch equation applied at "show me patient 42". -/
theorem C3_witness :
    vector_search_patients envW (pystr ("show me patient 42")) 5 =
      pidBranch envW (pystr ("show me patient 42")) 42 :=
  C3_query_classifier.2.2.2.1 envW 5 (pystr ("show me patient 42")) 42 rfl

/-- C6 evaluation at the failing input: a PID lookup for an absent patient
returns HTTP 200 with empty results and a message — but the response body
carries NO `total_results` key (`none`), although the claim (and the
endpoint docstring, src/main.py:521-525) promise `total_results: 0`. -/
theorem C6_pid_not_found_body :
    vector_search_endpoint envEmpty (pystr ("2026-10-12 00:00:00")) (pystr ("patient 999")) 5 =
      .ok { status := 200,
            body := { search_type := .pid_lookup, query := pystr ("patient 999"), results := [],
                      message := some (pystr ("No patient found with PID 999")),
                      total_results := none,
                      search_date := some (pystr ("2026-10-12 00:00:00")),
                      status_field := some (pystr ("success")) } } := rfl

/-- C7: when the upstream vision call raises, `analyze_image_with_ai` still
returns a well-formed result whose identifier is "Analysis failed" and whose
prescription is an error-describing string, and the endpoint answers the
HTTP call normally instead of propagating the exception. -/
theorem C7_vision_failure_fallback (ct : List Char)
    (hct : pyStartswith (pystr ("image/")) ct = true) (e : PyErr) (today : List Char) :
    analyze_image_endpoint (some ct) (.error e) today =
      .ok { analysis_date := today,
            patient_id := .str (pystr ("Analysis failed")),
            prescription := .str (pystr ("Error occurred during analysis: ") ++ e.msg) } := by
  unfold analyze_image_endpoint analyze_image_with_ai analysisFallback
  simp [hct]

/-- Witness for C7 with a PNG upload and a concrete vision failure. -/
theorem C7_witness :
    analyze_image_endpoint (some (pystr ("image/png")))
        (.error (.externalError (pystr ("vision model unavailable")))) (pystr ("2026-10-12")) =
      .ok { analysis_date := pystr ("2026-10-12"),
            patient_id := .str (pystr ("Analysis failed")),
            prescription := .str (pystr ("Error occurred during analysis: ") ++
              (PyErr.externalError (pystr ("vision model unavailable"))).msg) } :=
  C7_vision_failure_fallback (pystr ("image/png")) rfl
    (.externalError (pystr ("vision model unavailable"))) (pystr ("2026-10-12"))

/-- C8: the `/patients` pagination parameters are clamped before being
interpolated into the warehouse query: the effective limit never exceeds
100 (limit=500 requests exactly 100 rows) and the effective offset is never
negative. -/
theorem C8_patients_pagination_clamped :
    (∀ limit offset : Int, (get_all_patients_query limit offset).limit ≤ 100 ∧
      0 ≤ (get_all_patients_query limit offset).offset) ∧
    (∀ offset : Int, (get_all_patients_query 500 offset).limit = 100) := by
  refine ⟨fun l o => ⟨min_le_right _ _, le_max_right _ _⟩, fun o => ?_⟩
  unfold get_all_patients_query
  norm_num

/-- C9: a `GET /search` call whose query is empty or whitespace-only is
rejected with HTTP 400, and the warehouse is never contacted. -/
theorem C9_blank_search_rejected (env : Env) (q : List Char)
    (h : ∀ c ∈ q, pyWsChar c = true) :
    (search_patients_endpoint env q).warehouseCalled = false ∧
    (search_patients_endpoint env q).response =
      .error { status := 400, detail := pystr ("Query parameter q is required") } := by
  have hq : pstrip q = [] := by
    unfold pstrip
    rw [List.dropWhile_eq_nil_iff.mpr h, List.rdropWhile_nil]
  unfold search_patients_endpoint
  rw [hq]
  exact ⟨rfl, rfl⟩

/-- Witness for C9 with a whitespace-only query. -/
theorem C9_witness :
    (search_patients_endpoint envEmpty (pystr ("   "))).warehouseCalled = false ∧
    (search_patients_endpoint envEmpty (pystr ("   "))).response =
      .error { status := 400, detail := pystr ("Query parameter q is required") } :=
  C9_blank_search_rejected envEmpty (pystr ("   ")) (by decide)

lemma vsp_ok_shape (env : Env) (q : List Char) (k : Nat) (r : Option SearchDict)
    (h : vector_search_patients env q k = .ok r) :
    ∃ d, r = some d ∧
      (d.search_type = SType.pid_lookup ∨ d.search_type = SType.vector_search) := by
  unfold vector_search_patients pidBranch semBranch at h
  cases hc : classifyq q with
  | some pid =>
    simp only [hc] at h
    cases ht : env.readTable with
    | error e => simp only [ht] at h; exact Except.noConfusion h
    | ok tbl =>
      simp only [ht] at h
      cases hf : tbl.filter (fun r => r.PID == (pid : Int)) with
      | nil =>
        simp only [hf] at h
        exact ⟨_, (Except.ok.inj h).symm, Or.inl rfl⟩
      | cons p ps =>
        simp only [hf] at h
        exact ⟨_, (Except.ok.inj h).symm, Or.inl rfl⟩
  | none =>
    simp only [hc] at h
    cases he : env.embed q with
    | error e => simp only [he] at h; exact Except.noConfusion h
    | ok u =>
      simp only [he] at h
      cases hv : env.vsearch q k with
      | error e => simp only [hv] at h; exact Except.noConfusion h
      | ok rows =>
        simp only [hv] at h
        exact ⟨_, (Except.ok.inj h).symm, Or.inr rfl⟩

/-- C10 (implicit): `vector_search_patients` never produces `None` on a
non-raising path, so the `/vector-search` handler's `search_type = "error"`
branch is unreachable: every successful response has status 200 and
`search_type` either `pid_lookup` or `vector_search`. -/
theorem C10_no_none_result :
    (∀ env q k r, vector_search_patients env q k = .ok r → r.isSome = true) ∧
    (∀ env now q k resp, vector_search_endpoint env now q k = .ok resp →
      resp.status = 200 ∧
      (resp.body.search_type = SType.pid_lookup ∨
        resp.body.search_type = SType.vector_search)) := by
  constructor
  · intro env q k r h
    obtain ⟨d, rfl, _⟩ := vsp_ok_shape env q k r h
    rfl
  · intro env now q k resp h
    unfold vector_search_endpoint at h
    cases hv : vector_search_patients env q k with
    | error e => rw [hv] at h; exact absurd h (by simp)
    | ok r =>
      obtain ⟨d, rfl, hd⟩ := vsp_ok_shape env q k r hv
      rw [hv] at h
      cases h
      exact ⟨rfl, hd⟩

/-- Witness for C10 at the concrete PID-lookup call against `envW`. -/
theorem C10_witness :
    ({ status := 200,
       body := { search_type := .pid_lookup, query := pystr ("patient 42"),
                 results := [pidEntry rowAlice], message := none, total_results := some 1,
                 search_date := some (pystr ("now")),
                 status_field := some (pystr ("success")) } } : VSResponse).status = 200 ∧
    (({ status := 200,
        body := { search_type := .pid_lookup, query := pystr ("patient 42"),
                  results := [pidEntry rowAlice], message := none, total_results := some 1,
                  search_date := some (pystr ("now")),
                  status_field := some (pystr ("success")) } } : VSResponse).body.search_type =
        SType.pid_lookup ∨
      ({ status := 200,
         body := { search_type := .pid_lookup, query := pystr ("patient 42"),
                   results := [pidEntry rowAlice], message := none, total_results := some 1,
                   search_date := some (pystr ("now")),
                   status_field := some (pystr ("success")) } } : VSResponse).body.search_type =
        SType.vector_search) :=
  C10_no_none_result.2 envW (pystr ("now")) (pystr ("patient 42")) 5
    { status := 200,
      body := { search_type := .pid_lookup, query := pystr ("patient 42"),
                results := [pidEntry rowAlice], message := none, total_results := some 1,
                search_date := some (pystr ("now")),
                status_field := some (pystr ("success")) } }
    rfl

lemma length_insertByDistance (r : DistRow) (l : List DistRow) :
    (insertByDistance r l).length = l.length + 1 := by
  induction l with
  | nil => rfl
  | cons x xs ih =>
    unfold insertByDistance
    split
    · simp
    · simp [ih]

lemma length_sortByDistance (l : List DistRow) : (sortByDistance l).length = l.length := by
  induction l with
  | nil => rfl
  | cons x xs ih => simp [sortByDistance, length_insertByDistance, ih]

lemma mem_insertByDistance {a r : DistRow} {l : List DistRow} :
    a ∈ insertByDistance r l ↔ a = r ∨ a ∈ l := by
  induction l with
  | nil => simp [insertByDistance]
  | cons x xs ih =>
    unfold insertByDistance
    split
    · simp [List.mem_cons]
      try tauto
    · simp [List.mem_cons, ih]
      try tauto

lemma pairwise_insertByDistance {r : DistRow} {l : List DistRow}
    (h : l.Pairwise distLe) : (insertByDistance r l).Pairwise distLe := by
  induction l with
  | nil => simp [insertByDistance, List.pairwise_singleton]
  | cons x xs ih =>
    rw [List.pairwise_cons] at h
    obtain ⟨hx, hxs⟩ := h
    unfold insertByDistance
    split
    · next hle =>
      rw [List.pairwise_cons]
      refine ⟨fun b hb => ?_, List.pairwise_cons.mpr ⟨hx, hxs⟩⟩
      rcases List.mem_cons.mp hb with rfl | hb'
      · exact hle
      · exact le_trans hle (hx b hb')
    · next hgt =>
      rw [List.pairwise_cons]
      refine ⟨fun b hb => ?_, ih hxs⟩
      rcases mem_insertByDistance.mp hb with rfl | hb'
      · exact le_of_not_le hgt
      · exact hx b hb'

lemma pairwise_sortByDistance (l : List DistRow) : (sortByDistance l).Pairwise distLe := by
  induction l with
  | nil => exact List.Pairwise.nil
  | cons x xs ih => exact pairwise_insertByDistance ih

lemma le_rhe (x : ℚ) : ⌊x⌋ ≤ rhe x := by
  unfold rhe
  split_ifs <;> omega

lemma rhe_le (x : ℚ) : rhe x ≤ ⌊x⌋ + 1 := by
  unfold rhe
  split_ifs <;> omega

lemma rhe_mono {x y : ℚ} (h : x ≤ y) : rhe x ≤ rhe y := by
  have hf : ⌊x⌋ ≤ ⌊y⌋ := Int.floor_mono h
  rcases eq_or_lt_of_le hf with heq | hlt
  · unfold rhe
    rw [← heq]
    have hfr : x - ⌊x⌋ ≤ y - ⌊x⌋ := by linarith
    split_ifs <;> first | omega | linarith
  · have h1 := rhe_le x
    have h2 := le_rhe y
    omega

lemma pyRound1_mono {x y : ℚ} (h : x ≤ y) : pyRound1 x ≤ pyRound1 y := by
  unfold pyRound1
  have hm : rhe (x * 10) ≤ rhe (y * 10) :=
    rhe_mono (by linarith)
  have : ((rhe (x * 10) : ℤ) : ℚ) ≤ ((rhe (y * 10) : ℤ) : ℚ) := Int.cast_le.mpr hm
  linarith

lemma similarity_percent_antitone {a b : ℚ} (h : a ≤ b) :
    similarity_percent b ≤ similarity_percent a := by
  unfold similarity_percent
  exact pyRound1_mono (by linarith)

/-- C4: every `SearchOutcome` produced by `vector_search_patients` satisfies
the invariant: a PID-lookup outcome carries at most one result, each with
similarity exactly 100.0; a semantic outcome carries at most `top_k` results
(given the external vector-search contract) ordered by ascending distance,
equivalently descending similarity. -/
theorem C4_search_outcome_invariants (env : Env) (q : List Char) (k : Nat)
    (hvs : ∀ rows, env.vsearch q k = .ok rows → rows.length ≤ k)
    (d : SearchDict) (h : vector_search_patients env q k = .ok (some d)) :
    (d.search_type = SType.pid_lookup →
      d.results.length ≤ 1 ∧ ∀ r ∈ d.results, r.similarity = 100) ∧
    (d.search_type = SType.vector_search →
      d.results.length ≤ k ∧
      d.results.Pairwise (fun a b =>
        a.distance.getD 0 ≤ b.distance.getD 0 ∧ b.similarity ≤ a.similarity)) := by
  unfold vector_search_patients pidBranch semBranch at h
  cases hc : classifyq q with
  | some pid =>
    simp only [hc] at h
    cases ht : env.readTable with
    | error e => simp only [ht] at h; exact Except.noConfusion h
    | ok tbl =>
      simp only [ht] at h
      cases hf : tbl.filter (fun r => r.PID == (pid : Int)) with
      | nil =>
        simp only [hf] at h
        have hd := Option.some.inj (Except.ok.inj h)
        subst hd
        exact ⟨fun _ => ⟨by simp, by simp⟩, fun hst => absurd hst (by simp)⟩
      | cons p ps =>
        simp only [hf] at h
        have hd := Option.some.inj (Except.ok.inj h)
        subst hd
        refine ⟨fun _ => ⟨by simp, ?_⟩, fun hst => absurd hst (by simp)⟩
        intro r hr
        rcases List.mem_singleton.mp hr with rfl
        rfl
  | none =>
    simp only [hc] at h
    cases he : env.embed q with
    | error e => simp only [he] at h; exact Except.noConfusion h
    | ok u =>
      simp only [he] at h
      cases hv : env.vsearch q k with
      | error e => simp only [hv] at h; exact Except.noConfusion h
      | ok rows =>
        simp only [hv] at h
        have hd := Option.some.inj (Except.ok.inj h)
        subst hd
        refine ⟨fun hst => absurd hst (by simp), fun _ => ⟨?_, ?_⟩⟩
        · rw [List.length_map, length_sortByDistance]
          exact hvs rows hv
        · rw [List.pairwise_map]
          refine (pairwise_sortByDistance rows).imp ?_
          intro a b hab
          exact ⟨by simpa [semEntry] using hab, similarity_percent_antitone hab⟩

/-- Witness for C4 at the concrete PID lookup of `envW`. -/
theorem C4_witness :
    (dictAlice.search_type = SType.pid_lookup →
      dictAlice.results.length ≤ 1 ∧ ∀ r ∈ dictAlice.results, r.similarity = 100) ∧
    (dictAlice.search_type = SType.vector_search →
      dictAlice.results.length ≤ 5 ∧
      dictAlice.results.Pairwise (fun a b =>
        a.distance.getD 0 ≤ b.distance.getD 0 ∧ b.similarity ≤ a.similarity)) :=
  C4_search_outcome_invariants envW (pystr ("patient 42")) 5
    (fun rows hr => by
      have hr' : Except.ok [distRowBob] = Except.ok rows := hr
      rw [← Except.ok.inj hr']
      decide)
    dictAlice rfl

/-- C5: every semantic-search result with cosine distance `d` reports
similarity `round((1 - d) * 100, 1)`; in particular distance 0.0 gives
similarity 100.0, distance 0.25 gives 75.0 and distance 1.0 gives 0.0. -/
theorem C5_similarity_conversion :
    (∀ d : ℚ, similarity_percent d = pyRound1 ((1 - d) * 100)) ∧
    similarity_percent 0 = 100 ∧
    similarity_percent (1 / 4) = 75 ∧
    similarity_percent 1 = 0 ∧
    (∀ env q k (d : SearchDict), vector_search_patients env q k = .ok (some d) →
      d.search_type = SType.vector_search →
      ∀ r ∈ d.results, ∃ dd, r.distance = some dd ∧
        r.similarity = pyRound1 ((1 - dd) * 100)) := by
  refine ⟨fun d => rfl, by norm_num [similarity_percent, pyRound1, rhe],
    by norm_num [similarity_percent, pyRound1, rhe],
    by norm_num [similarity_percent, pyRound1, rhe], ?_⟩
  intro env q k d h hst r hr
  unfold vector_search_patients pidBranch semBranch at h
  cases hc : classifyq q with
  | some pid =>
    simp only [hc] at h
    cases ht : env.readTable with
    | error e => simp only [ht] at h; exact Except.noConfusion h
    | ok tbl =>
      simp only [ht] at h
      cases hf : tbl.filter (fun r => r.PID == (pid : Int)) with
      | nil =>
        simp only [hf] at h
        have hd := Option.some.inj (Except.ok.inj h)
        subst hd
        exact absurd hst (by simp)
      | cons p ps =>
        simp only [hf] at h
        have hd := Option.some.inj (Except.ok.inj h)
        subst hd
        exact absurd hst (by simp)
  | none =>
    simp only [hc] at h
    cases he : env.embed q with
    | error e => simp only [he] at h; exact Except.noConfusion h
    | ok u =>
      simp only [he] at h
      cases hv : env.vsearch q k with
      | error e => simp only [hv] at h; exact Except.noConfusion h
      | ok rows =>
        simp only [hv] at h
        have hd := Option.some.inj (Except.ok.inj h)
        subst hd
        simp only [List.mem_map] at hr
        obtain ⟨row, hrow, rfl⟩ := hr
        exact ⟨row.distance, rfl, rfl⟩

/-- Witness for C5 at the concrete semantic search of `envW` (distance 1/4). -/
theorem C5_witness :
    (semEntry distRowBob).distance = some (1 / 4) ∧
    (semEntry distRowBob).similarity = pyRound1 ((1 - 1 / 4) * 100) := by
  obtain ⟨dd, h1, h2⟩ := C5_similarity_conversion.2.2.2.2 envW (pystr ("joint pain")) 5 dictBob
    rfl rfl (semEntry distRowBob) (List.mem_singleton_self _)
  have hdd : dd = 1 / 4 := by
    have h1' : some (1 / 4 : ℚ) = some dd := h1
    exact (Option.some.inj h1').symm
  subst hdd
  exact ⟨h1, h2⟩
